import Mathlib

/-!
Verification of the `iothub` Go package (github.com/mtraver/iothub), a
configuration-and-naming helper for devices connecting to Azure IoT Hub
over MQTT. The package derives protocol-mandated identifiers (client id,
username, command/telemetry topics) from a `Device` record, extracts a
device id from an X.509 certificate's subject common name, and assembles
a mutual-TLS MQTT client configuration.

The Go code is shallowly embedded: pure string-formatting methods become
Lean functions on a `Device` structure; the external collaborators
(filesystem reads, PEM decoding, X.509 parsing, the paho MQTT library)
are modelled as explicit environment records of functions, and the
package's own control flow over them is translated directly from the
source of `iothub.go` and `broker.go`.
-/

namespace Iothub

/-- `MQTTBroker` represents an MQTT server (broker.go). -/
structure MQTTBroker where
  Host : String
  Port : Int
deriving DecidableEq, Repr

/-- `URL` returns the URL of the MQTT server:
`fmt.Sprintf("tls://%s:%d", b.Host, b.Port)` (broker.go). -/
def MQTTBroker.URL (b : MQTTBroker) : String :=
  "tls://" ++ b.Host ++ ":" ++ toString b.Port

/-- The constant `azureDevicesEndpoint = "azure-devices.net"` (iothub.go). -/
def azureDevicesEndpoint : String := "azure-devices.net"

/-- `Device` represents an IoT Hub device (iothub.go). -/
structure Device where
  HubName : String
  DeviceID : String
  CertPath : String
  PrivKeyPath : String
deriving DecidableEq, Repr

/-- `Broker` returns the broker descriptor:
host `fmt.Sprintf("%s.%s", d.HubName, azureDevicesEndpoint)`, port 8883. -/
def Device.Broker (d : Device) : MQTTBroker :=
  { Host := d.HubName ++ "." ++ azureDevicesEndpoint, Port := 8883 }

/-- `ClientID` returns the device ID (iothub.go). -/
def Device.ClientID (d : Device) : String :=
  d.DeviceID

/-- `Username` returns `fmt.Sprintf("%s.%s/%s", d.HubName, azureDevicesEndpoint, d.DeviceID)`
(iothub.go; no API version is appended, see the comment in the source). -/
def Device.Username (d : Device) : String :=
  d.HubName ++ "." ++ azureDevicesEndpoint ++ "/" ++ d.DeviceID

/-- `CommandTopic` returns `fmt.Sprintf("/devices/%v/messages/devicebound/#", d.DeviceID)`. -/
def Device.CommandTopic (d : Device) : String :=
  "/devices/" ++ d.DeviceID ++ "/messages/devicebound/#"

/-- `TelemetryTopic` returns `fmt.Sprintf("/devices/%v/messages/events", d.DeviceID)`. -/
def Device.TelemetryTopic (d : Device) : String :=
  "/devices/" ++ d.DeviceID ++ "/messages/events"

/-- A call to a pure accessor made twice in sequence, returning both results
together with the device value after the two calls.  The Go methods take a
pointer receiver and only read fields, so the device is returned unchanged;
this makes the absence of side effects explicit in the embedding. -/
def callTwice (f : Device → String) (d : Device) : (String × String) × Device :=
  let r1 := f d
  let r2 := f d
  ((r1, r2), d)

/-- A PEM block as returned by Go's `encoding/pem.Decode`: a type string
and the decoded payload bytes.  Only the fields the package reads are
modelled. -/
structure PemBlock where
  Type' : String
  Bytes : List Nat
deriving DecidableEq, Repr

/-- An X.509 certificate as far as the package inspects it: the subject
common name (`cert.Subject.CommonName`). -/
structure X509Certificate where
  SubjectCommonName : String
deriving DecidableEq, Repr

/-- The error outcomes of `DeviceIDFromCert`, one per `return` site in the
source: the file does not exist (`"iothub: cert file does not exist"`,
the `os.IsNotExist` branch), reading the file failed for any other reason
(`"iothub: failed to read cert"`), PEM decoding produced no `CERTIFICATE`
block (`"iothub: failed to decode PEM certificate"`), or
`x509.ParseCertificate` failed (its error is returned unchanged). -/
inductive CertError where
  | NotFound
  | ReadError
  | DecodeError
  | ParseError
deriving DecidableEq, Repr

/-- The ways `ioutil.ReadFile` can fail, as far as the source
distinguishes them with `os.IsNotExist(err)`: the file does not exist, or
any other read error (permission denied, a directory, an I/O error, ...). -/
inductive ReadFileError where
  | IsNotExist
  | Other
deriving DecidableEq, Repr

/-- The external collaborators of `DeviceIDFromCert`: the filesystem
(`ioutil.ReadFile`, returning the bytes or a `ReadFileError`), Go's
`pem.Decode` (returning the first block, or `none` if no block is found,
together with the rest of the input), and `x509.ParseCertificate`. -/
structure CertEnv where
  readFile : String → Except ReadFileError (List Nat)
  pemDecode : List Nat → Option PemBlock × List Nat
  parseCertificate : List Nat → Except Unit X509Certificate

/-- `DeviceIDFromCert` gets the Common Name from an X.509 cert (iothub.go):
read the file (distinguishing a non-existent file from any other read
failure with `os.IsNotExist`), decode the first PEM block (discarding the
rest), require the block to exist and to have type `"CERTIFICATE"`, parse
its payload as a certificate and return the subject common name. -/
def DeviceIDFromCert (env : CertEnv) (certPath : String) : Except CertError String :=
  match env.readFile certPath with
  | .error .IsNotExist => .error .NotFound
  | .error .Other => .error .ReadError
  | .ok certBytes =>
    match (env.pemDecode certBytes).fst with
    | none => .error .DecodeError
    | some block =>
      if block.Type' ≠ "CERTIFICATE" then .error .DecodeError
      else
        match env.parseCertificate block.Bytes with
        | .error _ => .error .ParseError
        | .ok cert => .ok cert.SubjectCommonName

/-- The continuation of `DeviceIDFromCert` after `pem.Decode`, as a function
of the first decoded block only (the source binds the rest of the input to
`_`). -/
def certIDFromFirstBlock (env : CertEnv) : Option PemBlock → Except CertError String
  | none => .error .DecodeError
  | some block =>
    if block.Type' ≠ "CERTIFICATE" then .error .DecodeError
    else
      match env.parseCertificate block.Bytes with
      | .error _ => .error .ParseError
      | .ok cert => .ok cert.SubjectCommonName

/-- A concrete environment used to instantiate the universally quantified
theorems about `DeviceIDFromCert`: a file `"cert.pem"` whose first PEM
block is a certificate with subject common name `"dev-1"`; a file
`"notes.txt"` whose first PEM block has type `"RSA PRIVATE KEY"`; a file
`"locked.pem"` that exists but cannot be read (e.g. permission denied);
every other path does not exist. -/
def certEnv0 : CertEnv where
  readFile := fun p =>
    if p = "cert.pem" then .ok [1, 2, 3]
    else if p = "notes.txt" then .ok [9, 9]
    else if p = "locked.pem" then .error .Other
    else .error .IsNotExist
  pemDecode := fun bs =>
    if bs = [1, 2, 3] then (some ⟨"CERTIFICATE", [7]⟩, [4])
    else if bs = [9, 9] then (some ⟨"RSA PRIVATE KEY", [8]⟩, [1, 2, 3]) else (none, bs)
  parseCertificate := fun bs =>
    if bs = [7] then .ok ⟨"dev-1"⟩ else .error ()

/-- An X.509 certificate pool (`x509.CertPool`), opaque to the package:
it is created, filled from PEM bytes, and stored in the TLS config. -/
structure CertPool where
  poolId : Nat
deriving DecidableEq, Repr

/-- A TLS client certificate/key pair (`tls.Certificate`), opaque to the
package: loaded from the configured paths and stored in the TLS config. -/
structure TLSCertificate where
  pairId : Nat
deriving DecidableEq, Repr

/-- Go's `tls.RequireAndVerifyClientCert` constant (value 4). -/
def RequireAndVerifyClientCert : Nat := 4

/-- Go's `tls.VersionTLS12` constant (value 0x0303). -/
def VersionTLS12 : Nat := 0x0303

/-- The fields of Go's `tls.Config` that `NewClient` sets. -/
structure TLSConfig where
  RootCAs : CertPool
  ClientAuth : Nat
  Certificates : List TLSCertificate
  MinVersion : Nat
deriving DecidableEq, Repr

/-- The fields of paho's `mqtt.ClientOptions` that `NewClient` sets.
`AddBroker` appends to the server list; the setters overwrite fields. -/
structure ClientOptions where
  Servers : List String
  ClientID : String
  Username : String
  TLSConfig : Option Iothub.TLSConfig
deriving DecidableEq, Repr

/-- `mqtt.NewClientOptions()`: fresh options with no broker, empty
identifiers and no TLS configuration. -/
def ClientOptions.new : ClientOptions :=
  { Servers := [], ClientID := "", Username := "", TLSConfig := none }

/-- `opts.AddBroker(server)`: appends the server URL to the list. -/
def ClientOptions.AddBroker (o : ClientOptions) (server : String) : ClientOptions :=
  { o with Servers := o.Servers ++ [server] }

/-- `opts.SetClientID(id)`. -/
def ClientOptions.SetClientID (o : ClientOptions) (i : String) : ClientOptions :=
  { o with ClientID := i }

/-- `opts.SetUsername(u)`. -/
def ClientOptions.SetUsername (o : ClientOptions) (u : String) : ClientOptions :=
  { o with Username := u }

/-- `opts.SetTLSConfig(t)`. -/
def ClientOptions.SetTLSConfig (o : ClientOptions) (t : Iothub.TLSConfig) : ClientOptions :=
  { o with TLSConfig := some t }

/-- The opaque broker-client handle: `mqtt.NewClient(opts)` wraps the final
options. -/
structure MqttClient where
  options : ClientOptions
deriving DecidableEq, Repr

/-- The error outcomes of `NewClient`, one per `return nil, err` site:
reading the CA-certs stream failed; no certs were parsed from the CA
certs; `tls.LoadX509KeyPair` failed; or a caller-supplied option function
returned an error (propagated unchanged). -/
inductive NewClientError where
  | ReadCACertsError
  | NoCACertsParsed
  | LoadKeyPairError
  | OptionError (msg : String)
deriving DecidableEq, Repr

/-- A caller-supplied option-mutator function
`func(*Device, *mqtt.ClientOptions) error`, modelled functionally: it
returns the mutated options or an error. -/
def ClientOption : Type :=
  Device → ClientOptions → Except String ClientOptions

/-- The external collaborators of `NewClient`:
`x509.(*CertPool).AppendCertsFromPEM` composed with `x509.NewCertPool()`
(`none` models the `false` return, i.e. no certs parsed), and
`tls.LoadX509KeyPair` on the two paths. -/
structure ClientEnv where
  appendCertsFromPEM : List Nat → Option CertPool
  loadX509KeyPair : String → String → Except Unit TLSCertificate

/-- The `tls.Config` literal built by `NewClient` (iothub.go lines 97-102):
root pool, `RequireAndVerifyClientCert`, the single loaded pair, and
minimum version TLS 1.2. -/
def buildTLSConfig (certpool : CertPool) (cert : TLSCertificate) : TLSConfig :=
  { RootCAs := certpool
    ClientAuth := RequireAndVerifyClientCert
    Certificates := [cert]
    MinVersion := VersionTLS12 }

/-- The default options `NewClient` assembles before applying the caller's
option functions (iothub.go lines 104-110): fresh options, broker URL,
client ID, username, TLS configuration. -/
def Device.defaultClientOptions (d : Device) (tlsConf : TLSConfig) : ClientOptions :=
  ((((ClientOptions.new).AddBroker d.Broker.URL).SetClientID
      d.ClientID).SetUsername d.Username).SetTLSConfig tlsConf

/-- The `for _, option := range options` loop of `NewClient`: apply each
option function in order, stopping at the first error. -/
def applyOptions (d : Device) : List ClientOption → ClientOptions → Except String ClientOptions
  | [], opts => .ok opts
  | f :: rest, opts =>
    match f d opts with
    | .error e => .error e
    | .ok opts' => applyOptions d rest opts'

/-- `NewClient` (iothub.go): read the CA certs from the stream (modelled as
an already-read `Except`), build the cert pool, load the client
certificate/key pair, build the TLS configuration and default options,
apply the caller's option functions in order, and wrap the final options
in a client handle. -/
def Device.NewClient (env : ClientEnv) (d : Device) :
    Except Unit (List Nat) → List ClientOption → Except NewClientError MqttClient
  | .error _, _ => .error .ReadCACertsError
  | .ok pemCerts, options =>
    match env.appendCertsFromPEM pemCerts with
    | none => .error .NoCACertsParsed
    | some certpool =>
      match env.loadX509KeyPair d.CertPath d.PrivKeyPath with
      | .error _ => .error .LoadKeyPairError
      | .ok cert =>
        let tlsConf := buildTLSConfig certpool cert
        let opts := d.defaultClientOptions tlsConf
        match applyOptions d options opts with
        | .error e => .error (.OptionError e)
        | .ok opts' => .ok ⟨opts'⟩

/-- A concrete environment used to instantiate the universally quantified
theorems about `NewClient`: an empty PEM stream parses no certs, any other
stream yields pool 1; the key pair loads only from `"c.pem"`/`"k.pem"`. -/
def clientEnv0 : ClientEnv where
  appendCertsFromPEM := fun bs => if bs = [] then none else some ⟨1⟩
  loadX509KeyPair := fun c k =>
    if c = "c.pem" then (if k = "k.pem" then .ok ⟨2⟩ else .error ()) else .error ()

/-- A concrete device for witnesses. -/
def device0 : Device :=
  { HubName := "myhub", DeviceID := "foo", CertPath := "c.pem", PrivKeyPath := "k.pem" }

/-- A concrete device whose key path does not match its certificate, for
witnesses of the key-pair failure branch. -/
def deviceBadKey : Device :=
  { HubName := "myhub", DeviceID := "foo", CertPath := "c.pem", PrivKeyPath := "wrong.pem" }

/-- A concrete option function that succeeds, overwriting the username. -/
def optCustomUser : ClientOption :=
  fun _ o => .ok (o.SetUsername "custom")

/-- A concrete option function that fails. -/
def optBoom : ClientOption :=
  fun _ _ => .error "boom"

end Iothub

namespace Iothub

/-- **C1.** For every `Device` with hub name `h` and device id `d`,
`Username()` returns exactly `h ++ ".azure-devices.net/" ++ d`: the hub
name, the broker domain suffix, a slash, and the device identifier, with
no escaping and no API-version query parameter appended. -/
theorem Username_eq (dev : Device) :
    dev.Username = dev.HubName ++ ".azure-devices.net/" ++ dev.DeviceID := by
  show dev.HubName ++ "." ++ azureDevicesEndpoint ++ "/" ++ dev.DeviceID = _
  simp only [azureDevicesEndpoint, String.append_assoc]
  rfl

/-- **C2.** For every `Device` with hub name `h`, `Broker()` returns the
descriptor with host `h ++ ".azure-devices.net"` and port 8883 — it depends
only on the hub name, with the port fixed — and rendering that descriptor
with `URL()` yields exactly `"tls://" ++ h ++ ".azure-devices.net:8883"`. -/
theorem Broker_eq (dev : Device) :
    dev.Broker = { Host := dev.HubName ++ ".azure-devices.net", Port := 8883 }
      ∧ dev.Broker.URL = "tls://" ++ dev.HubName ++ ".azure-devices.net:8883"
      ∧ ∀ dev' : Device, dev'.HubName = dev.HubName → dev'.Broker = dev.Broker := by
  refine ⟨?_, ?_, ?_⟩
  · show MQTTBroker.mk (dev.HubName ++ "." ++ azureDevicesEndpoint) 8883 = _
    simp only [azureDevicesEndpoint, String.append_assoc]
    rfl
  · show "tls://" ++ (dev.HubName ++ "." ++ azureDevicesEndpoint) ++ ":" ++ toString (8883 : Int) = _
    simp only [azureDevicesEndpoint, String.append_assoc]
    rfl
  · intro dev' h
    simp [Device.Broker, h]

/-- Closed-form witness for `Broker_eq`, discharging its inner hypothesis at
a concrete device. -/
theorem Broker_eq_witness :
    (Device.mk "myhub" "foo" "c.pem" "k.pem").Broker.URL
      = "tls://myhub.azure-devices.net:8883"
      ∧ (Device.mk "myhub" "bar" "c2.pem" "k2.pem").Broker
          = (Device.mk "myhub" "foo" "c.pem" "k.pem").Broker :=
  ⟨(Broker_eq (Device.mk "myhub" "foo" "c.pem" "k.pem")).2.1,
    (Broker_eq (Device.mk "myhub" "foo" "c.pem" "k.pem")).2.2
      (Device.mk "myhub" "bar" "c2.pem" "k2.pem") rfl⟩

/-- **C5.** For every `Device` with device id `d`, `CommandTopic()` returns
exactly `"/devices/" ++ d ++ "/messages/devicebound/#"` and
`TelemetryTopic()` returns exactly `"/devices/" ++ d ++ "/messages/events"`. -/
theorem topics_eq (dev : Device) :
    dev.CommandTopic = "/devices/" ++ dev.DeviceID ++ "/messages/devicebound/#"
      ∧ dev.TelemetryTopic = "/devices/" ++ dev.DeviceID ++ "/messages/events" :=
  ⟨rfl, rfl⟩

/-- **C8.** For every `Device`, `ClientID()` returns the device identifier
field unchanged, independent of the hub name and the certificate/key
paths. -/
theorem ClientID_eq (h h' c c' k k' i : String) :
    (Device.mk h i c k).ClientID = i
      ∧ (Device.mk h i c k).ClientID = (Device.mk h' i c' k').ClientID :=
  ⟨rfl, rfl⟩

/-- **C9.** Topic and username derivation is idempotent and side-effect-free:
calling `Username`, `CommandTopic`, `TelemetryTopic` or `ClientID` twice on
the same `Device` returns identical strings both times and leaves the
device's fields unchanged. -/
theorem derivation_idempotent (dev : Device) :
    ((callTwice Device.Username dev).1.1 = (callTwice Device.Username dev).1.2
        ∧ (callTwice Device.Username dev).2 = dev)
      ∧ ((callTwice Device.CommandTopic dev).1.1 = (callTwice Device.CommandTopic dev).1.2
        ∧ (callTwice Device.CommandTopic dev).2 = dev)
      ∧ ((callTwice Device.TelemetryTopic dev).1.1 = (callTwice Device.TelemetryTopic dev).1.2
        ∧ (callTwice Device.TelemetryTopic dev).2 = dev)
      ∧ ((callTwice Device.ClientID dev).1.1 = (callTwice Device.ClientID dev).1.2
        ∧ (callTwice Device.ClientID dev).2 = dev) :=
  ⟨⟨rfl, rfl⟩, ⟨rfl, rfl⟩, ⟨rfl, rfl⟩, ⟨rfl, rfl⟩⟩

/-- **C3, counterexample.** The claim's "these are the only outcomes" is
false on the code: on the file `"locked.pem"`, which exists (its read
fails for a reason other than non-existence, e.g. permission denied),
`DeviceIDFromCert` returns the generic read-failure error
(`"iothub: failed to read cert"`, iothub.go line 29) — a fourth outcome
distinct from `NotFound`, `DecodeError` and `ParseError` and from any
success. -/
theorem DeviceIDFromCert_outcomes_cex :
    certEnv0.readFile "locked.pem" = .error .Other
      ∧ DeviceIDFromCert certEnv0 "locked.pem" = .error .ReadError
      ∧ CertError.ReadError ≠ .NotFound
      ∧ CertError.ReadError ≠ .DecodeError
      ∧ CertError.ReadError ≠ .ParseError :=
  ⟨rfl, rfl, by decide, by decide, by decide⟩

/-- **C3, amended.** Complete characterization of `DeviceIDFromCert`'s
outcomes: it returns the subject common name exactly when the file reads
successfully, the first PEM block has type `"CERTIFICATE"` and its
payload parses as X.509; it fails with `NotFound` exactly when the file
is absent, with the generic read error exactly when reading fails for any
other reason, with `DecodeError` exactly when no valid PEM certificate
block is found, and with `ParseError` exactly when the DER payload is not
a valid certificate.  Since `CertError` has exactly these four
constructors, these are the only outcomes. -/
theorem DeviceIDFromCert_outcomes (env : CertEnv) (path : String) :
    (DeviceIDFromCert env path = .error .NotFound ↔
        env.readFile path = .error .IsNotExist)
      ∧ (DeviceIDFromCert env path = .error .ReadError ↔
          env.readFile path = .error .Other)
      ∧ (∀ s, DeviceIDFromCert env path = .ok s ↔
          ∃ bytes block cert, env.readFile path = .ok bytes
            ∧ (env.pemDecode bytes).fst = some block
            ∧ block.Type' = "CERTIFICATE"
            ∧ env.parseCertificate block.Bytes = .ok cert
            ∧ s = cert.SubjectCommonName)
      ∧ (DeviceIDFromCert env path = .error .DecodeError ↔
          ∃ bytes, env.readFile path = .ok bytes
            ∧ ((env.pemDecode bytes).fst = none
                ∨ ∃ block, (env.pemDecode bytes).fst = some block
                    ∧ block.Type' ≠ "CERTIFICATE"))
      ∧ (DeviceIDFromCert env path = .error .ParseError ↔
          ∃ bytes block, env.readFile path = .ok bytes
            ∧ (env.pemDecode bytes).fst = some block
            ∧ block.Type' = "CERTIFICATE"
            ∧ env.parseCertificate block.Bytes = .error ()) := by
  unfold DeviceIDFromCert
  cases hr : env.readFile path with
  | error e => cases e <;> simp [hr]
  | ok bytes =>
    cases hb : (env.pemDecode bytes).fst with
    | none => simp [hr, hb]
    | some block =>
      by_cases ht : block.Type' = "CERTIFICATE"
      · cases hp : env.parseCertificate block.Bytes with
        | error e => simp [hr, hb, ht, hp]
        | ok cert => simp [hr, hb, ht, hp, eq_comm]
      · simp [hr, hb, ht]

/-- Closed-form instance of `DeviceIDFromCert_outcomes` on the concrete
environment `certEnv0`: success with common name `"dev-1"` on a good
certificate file, `NotFound` on a missing path, the generic read error on
an unreadable one. -/
theorem DeviceIDFromCert_outcomes_witness :
    DeviceIDFromCert certEnv0 "cert.pem" = .ok "dev-1"
      ∧ DeviceIDFromCert certEnv0 "missing.pem" = .error .NotFound
      ∧ DeviceIDFromCert certEnv0 "locked.pem" = .error .ReadError :=
  ⟨((DeviceIDFromCert_outcomes certEnv0 "cert.pem").2.2.1 "dev-1").mpr
      ⟨[1, 2, 3], ⟨"CERTIFICATE", [7]⟩, ⟨"dev-1"⟩,
        by rfl, by decide, rfl, by rfl, rfl⟩,
    (DeviceIDFromCert_outcomes certEnv0 "missing.pem").1.mpr (by rfl),
    (DeviceIDFromCert_outcomes certEnv0 "locked.pem").2.1.mpr (by rfl)⟩

/-- `certIDFromFirstBlock` reads the environment only through
`parseCertificate`. -/
theorem certIDFromFirstBlock_congr (env env' : CertEnv)
    (h : env.parseCertificate = env'.parseCertificate) (x : Option PemBlock) :
    certIDFromFirstBlock env x = certIDFromFirstBlock env' x := by
  cases x <;> simp [certIDFromFirstBlock, h]

/-- **C10.** On a readable file, `DeviceIDFromCert`'s result is determined
solely by the first PEM block: it factors through the block component
returned by `pem.Decode` (the rest of the input is discarded); when the
first block is absent or has a type other than `"CERTIFICATE"` the result
is the PEM-decode error, whatever follows in the file; and two files whose
first decoded blocks coincide produce the same result under the same
certificate parser. -/
theorem DeviceIDFromCert_firstBlock (env env' : CertEnv) (path path' : String)
    (bytes bytes' : List Nat)
    (hread : env.readFile path = .ok bytes)
    (hread' : env'.readFile path' = .ok bytes') :
    DeviceIDFromCert env path = certIDFromFirstBlock env (env.pemDecode bytes).fst
      ∧ ((env.pemDecode bytes).fst = none →
          DeviceIDFromCert env path = .error .DecodeError)
      ∧ (∀ block, (env.pemDecode bytes).fst = some block →
          block.Type' ≠ "CERTIFICATE" →
          DeviceIDFromCert env path = .error .DecodeError)
      ∧ (env.parseCertificate = env'.parseCertificate →
          (env.pemDecode bytes).fst = (env'.pemDecode bytes').fst →
          DeviceIDFromCert env path = DeviceIDFromCert env' path') := by
  have h1 : DeviceIDFromCert env path = certIDFromFirstBlock env (env.pemDecode bytes).fst := by
    unfold DeviceIDFromCert certIDFromFirstBlock
    rw [hread]
  have h1' : DeviceIDFromCert env' path'
      = certIDFromFirstBlock env' (env'.pemDecode bytes').fst := by
    unfold DeviceIDFromCert certIDFromFirstBlock
    rw [hread']
  refine ⟨h1, ?_, ?_, ?_⟩
  · intro hnone
    rw [h1, hnone]
    rfl
  · intro block hsome htype
    rw [h1, hsome]
    simp [certIDFromFirstBlock, htype]
  · intro hparse hpem
    rw [h1, h1', hpem]
    exact certIDFromFirstBlock_congr env env' hparse _

/-- Closed-form instance of `DeviceIDFromCert_firstBlock` on `certEnv0`:
the file `"notes.txt"`, whose first PEM block is a private key even though
a valid certificate's bytes follow it, yields the PEM-decode error. -/
theorem DeviceIDFromCert_firstBlock_witness :
    DeviceIDFromCert certEnv0 "notes.txt" = .error .DecodeError :=
  (DeviceIDFromCert_firstBlock certEnv0 certEnv0 "notes.txt" "notes.txt"
      [9, 9] [9, 9] (by rfl) (by rfl)).2.2.1
    ⟨"RSA PRIVATE KEY", [8]⟩ (by decide) (by decide)

/-- **C4.** `NewClient` fails with the no-certs-parsed error (the spec's
`ConfigError` kind) when no trusted roots parse from the supplied stream —
in particular for an empty stream — and with the key-pair-load error (also
the spec's `ConfigError` kind) when the client certificate/key pair loaded
from the device's configured paths is invalid or mismatched; in either
failure case no client handle is returned. -/
theorem NewClient_config_errors (env : ClientEnv) (d : Device)
    (bytes : List Nat) (options : List ClientOption) :
    (env.appendCertsFromPEM bytes = none →
        Device.NewClient env d (.ok bytes) options = .error .NoCACertsParsed)
      ∧ (env.appendCertsFromPEM [] = none →
        Device.NewClient env d (.ok []) options = .error .NoCACertsParsed)
      ∧ (∀ certpool, env.appendCertsFromPEM bytes = some certpool →
          env.loadX509KeyPair d.CertPath d.PrivKeyPath = .error () →
          Device.NewClient env d (.ok bytes) options = .error .LoadKeyPairError)
      ∧ (∀ e, Device.NewClient env d (.ok bytes) options = .error e →
          ∀ c, Device.NewClient env d (.ok bytes) options ≠ .ok c) := by
  refine ⟨?_, ?_, ?_, ?_⟩
  · intro h
    simp [Device.NewClient, h]
  · intro h
    simp [Device.NewClient, h]
  · intro certpool hp hk
    simp [Device.NewClient, hp, hk]
  · intro e he c hc
    rw [he] at hc
    exact Except.noConfusion hc

/-- Closed-form instance of `NewClient_config_errors` on `clientEnv0`: an
empty trusted-root stream and a mismatched key pair each fail. -/
theorem NewClient_config_errors_witness :
    Device.NewClient clientEnv0 device0 (.ok []) [] = .error .NoCACertsParsed
      ∧ Device.NewClient clientEnv0 deviceBadKey (.ok [5]) []
          = .error .LoadKeyPairError :=
  ⟨(NewClient_config_errors clientEnv0 device0 [] []).2.1 (by decide),
    (NewClient_config_errors clientEnv0 deviceBadKey [5] []).2.2.1
      ⟨1⟩ (by decide) (by rfl)⟩

/-- When the cert pool and key pair both load, `NewClient` is the
application of the caller's option functions to the default options,
wrapped in a handle on success and in `OptionError` on failure. -/
theorem NewClient_eq_applyOptions (env : ClientEnv) (d : Device)
    (bytes : List Nat) (certpool : CertPool) (cert : TLSCertificate)
    (options : List ClientOption)
    (hpool : env.appendCertsFromPEM bytes = some certpool)
    (hkey : env.loadX509KeyPair d.CertPath d.PrivKeyPath = .ok cert) :
    Device.NewClient env d (.ok bytes) options =
      match applyOptions d options
          (d.defaultClientOptions (buildTLSConfig certpool cert)) with
      | .error e => .error (.OptionError e)
      | .ok opts' => .ok ⟨opts'⟩ := by
  simp [Device.NewClient, hpool, hkey]

/-- **C6.** When root-pool construction and key-pair loading succeed, the
TLS configuration `NewClient` builds — carried by the options it hands to
the client constructor — has client-authentication mode
require-and-verify, trusted-root set exactly the parsed pool, certificate
list exactly the one loaded pair, and minimum protocol version TLS 1.2;
the default options also carry the broker URL, client ID and username. -/
theorem NewClient_tls_config (env : ClientEnv) (d : Device)
    (bytes : List Nat) (certpool : CertPool) (cert : TLSCertificate)
    (hpool : env.appendCertsFromPEM bytes = some certpool)
    (hkey : env.loadX509KeyPair d.CertPath d.PrivKeyPath = .ok cert) :
    Device.NewClient env d (.ok bytes) [] =
      .ok ⟨{ Servers := [d.Broker.URL]
             ClientID := d.ClientID
             Username := d.Username
             TLSConfig := some { RootCAs := certpool
                                 ClientAuth := RequireAndVerifyClientCert
                                 Certificates := [cert]
                                 MinVersion := VersionTLS12 } }⟩ := by
  rw [NewClient_eq_applyOptions env d bytes certpool cert [] hpool hkey]
  rfl

/-- Closed-form instance of `NewClient_tls_config` on `clientEnv0` and
`device0`. -/
theorem NewClient_tls_config_witness :
    Device.NewClient clientEnv0 device0 (.ok [5]) [] =
      .ok ⟨{ Servers := ["tls://myhub.azure-devices.net:8883"]
             ClientID := "foo"
             Username := "myhub.azure-devices.net/foo"
             TLSConfig := some { RootCAs := ⟨1⟩
                                 ClientAuth := 4
                                 Certificates := [⟨2⟩]
                                 MinVersion := 771 } }⟩ :=
  NewClient_tls_config clientEnv0 device0 [5] ⟨1⟩ ⟨2⟩ (by decide) (by rfl)

/-- The option loop distributes over list append: the second batch runs on
the outcome of the first. -/
theorem applyOptions_append (d : Device) (fs gs : List ClientOption)
    (opts0 : ClientOptions) :
    applyOptions d (fs ++ gs) opts0
      = Except.bind (applyOptions d fs opts0) (applyOptions d gs) := by
  induction fs generalizing opts0 with
  | nil => simp [applyOptions, Except.bind]
  | cons f fs ih =>
    cases h : f d opts0 with
    | error e => simp [applyOptions, h, Except.bind]
    | ok opts' => simp [applyOptions, h, ih]

/-- **C7.** `NewClient` applies the caller-supplied option functions to the
client options in exactly the order given, starting from the default
options (a batch split into two runs the second batch on the first's
outcome); if an option function fails, construction stops with that
error — the remaining option functions are never applied and no handle is
returned; if all succeed, the handle wraps the final options. -/
theorem NewClient_options_order (env : ClientEnv) (d : Device)
    (bytes : List Nat) (certpool : CertPool) (cert : TLSCertificate)
    (hpool : env.appendCertsFromPEM bytes = some certpool)
    (hkey : env.loadX509KeyPair d.CertPath d.PrivKeyPath = .ok cert) :
    (∀ fs gs opts0, applyOptions d (fs ++ gs) opts0
        = Except.bind (applyOptions d fs opts0) (applyOptions d gs))
      ∧ (∀ options opts',
          applyOptions d options
              (d.defaultClientOptions (buildTLSConfig certpool cert)) = .ok opts' →
          Device.NewClient env d (.ok bytes) options = .ok ⟨opts'⟩)
      ∧ (∀ pre suf (f : ClientOption) opts' e,
          applyOptions d pre
              (d.defaultClientOptions (buildTLSConfig certpool cert)) = .ok opts' →
          f d opts' = .error e →
          Device.NewClient env d (.ok bytes) (pre ++ f :: suf)
            = .error (.OptionError e)) := by
  refine ⟨fun fs gs opts0 => applyOptions_append d fs gs opts0, ?_, ?_⟩
  · intro options opts' h
    rw [NewClient_eq_applyOptions env d bytes certpool cert options hpool hkey, h]
  · intro pre suf f opts' e hpre hf
    rw [NewClient_eq_applyOptions env d bytes certpool cert (pre ++ f :: suf) hpool hkey,
      applyOptions_append d pre (f :: suf), hpre]
    simp [applyOptions, hf, Except.bind]

/-- Closed-form instance of `NewClient_options_order`: with a succeeding
option before it and another option after it, a failing option stops
construction with its error. -/
theorem NewClient_options_order_witness :
    Device.NewClient clientEnv0 device0 (.ok [5])
        ([optCustomUser] ++ optBoom :: [optCustomUser])
      = .error (.OptionError "boom") :=
  (NewClient_options_order clientEnv0 device0 [5] ⟨1⟩ ⟨2⟩
      (by decide) (by rfl)).2.2 [optCustomUser] [optCustomUser] optBoom
    ((device0.defaultClientOptions (buildTLSConfig ⟨1⟩ ⟨2⟩)).SetUsername "custom")
    "boom" (by rfl) (by rfl)

end Iothub
